import Mathlib

/-
Shallow embedding of src/PyDocumentationExtractor.py.

A loaded Python attribute value is modelled by `Value`: a class (with its
`__name__`, optional `__module__`, optional `__doc__` and its dir-visible
attribute namespace), a plain function (with optional `__module__`, optional
`__doc__`, the str() forms of its declared parameters, and optionally the
parameter list of a `__wrapped__` function underneath), or any other value
(plain data, module objects, ...), of which only a possible `__module__`
attribute is relevant to the program.  A module is a name, an optional
docstring and an attribute namespace.  The renderer is modelled as the list
of strings passed to `file_handle.write`, in order.
-/

namespace PyDocExtractor

/-- A dir-visible Python attribute value, as far as the extractor inspects it. -/
inductive Value where
  | cls (cname : String) (cmod : Option String) (cdoc : Option String)
      (cattrs : List (String × Value)) : Value
  | func (fmod : Option String) (fdoc : Option String) (fparams : List String)
      (fwrapped : Option (List String)) : Value
  | other (omod : Option String) : Value

/-- Source lines 13-15: the tuple `ILLEGAL_ATTRIBUTES`. -/
def ILLEGAL_ATTRIBUTES : List String :=
  ["__builtins__", "__cached__", "__file__", "__loader__",
   "__name__", "__package__", "__spec__",
   "__abstractmethods__", "__class__"]

/-- Source line 88: `getattr(attr, '__module__', '')` — the value's
`__module__` attribute, defaulting to the empty string when absent. -/
def getattr_module : Value → String
  | .cls _ cmod _ _ => cmod.getD ""
  | .func fmod _ _ _ => fmod.getD ""
  | .other omod => omod.getD ""

/-- Source lines 92 and 101: `'' if attr.__doc__ is None else attr.__doc__`. -/
def doc_or_empty (d : Option String) : String := d.getD ""

/-- Python's `dir(x)`: the attribute names of the namespace, without
duplicates, sorted ascending in lexicographic (code point) string order. -/
def py_dir (attrs : List (String × Value)) : List String :=
  List.insertionSort (· ≤ ·) (attrs.map Prod.fst).dedup

/-- Source line 61: `inspect.signature(func, follow_wrapped=...)`, reduced to
its parameter list in declaration order, each parameter as its `str()` form.
With `follow_wrapped := true` the signature of the `__wrapped__` function
(when present) would be reported instead; the source passes `false`. -/
def inspect_signature (f : Value) (follow_wrapped : Bool) : List String :=
  match f with
  | .func _ _ fparams fwrapped =>
      if follow_wrapped then fwrapped.getD fparams else fparams
  | _ => []

/-- Source lines 62-67: the accumulation loop of `get_formatted_parameters`,
which appends each parameter and a `', '` separator after every parameter
except the last. -/
def join_parameters : List String → String
  | [] => ""
  | [p] => p
  | p :: q :: rest => p ++ ", " ++ join_parameters (q :: rest)

/-- Source lines 51-68: `get_formatted_parameters`. -/
def get_formatted_parameters (f : Value) : String :=
  "(" ++ join_parameters (inspect_signature f false) ++ ")"

theorem sizeOf_lookup {l : List (String × Value)} {n : String} {v : Value}
    (h : l.lookup n = some v) : sizeOf v < sizeOf l := by
  induction l with
  | nil => simp [List.lookup] at h
  | cons p t ih =>
    obtain ⟨k, w⟩ := p
    rw [List.lookup] at h
    cases hk : (n == k) with
    | true =>
      rw [hk] at h
      simp only [Option.some.injEq] at h
      subst h
      simp only [List.cons.sizeOf_spec, Prod.mk.sizeOf_spec]
      omega
    | false =>
      rw [hk] at h
      have h1 := ih h
      simp only [List.cons.sizeOf_spec, Prod.mk.sizeOf_spec]
      omega

/-- Source lines 85-102: the body of `analyze_attributes`, parameterised by
the list of attribute names still to traverse.  `unit_name` is
`module.__name__` of the unit being traversed (for a class this is the class
name, for a module the module name); `attrs` is its attribute namespace.
Returns the list of strings written to the file handle, in order. -/
def analyze_names (unit_name : String) (attrs : List (String × Value))
    (names : List String) (class_mode : Bool) : List String :=
  match names with
  | [] => []
  | n :: rest =>
    (if n ∈ ILLEGAL_ATTRIBUTES then []
     else
       match hl : attrs.lookup n with
       | none => []
       | some (Value.cls cname cmod cdoc cattrs) =>
         if cmod.getD "" ≠ unit_name then []
         else
           ("## Class " ++ n ++ "\n" ++ doc_or_empty cdoc ++ "\n")
             :: analyze_names cname cattrs (py_dir cattrs) true
       | some (Value.func fmod fdoc fparams fwrapped) =>
         if fmod.getD "" ≠ unit_name then []
         else
           [(if class_mode then "### Method " ++ n
             else "## Function " ++ n
                  ++ get_formatted_parameters
                       (Value.func fmod fdoc fparams fwrapped))
            ++ "\n" ++ doc_or_empty fdoc ++ "\n"]
       | some (Value.other _) => [])
    ++ analyze_names unit_name attrs rest class_mode
termination_by (sizeOf attrs, names.length)
decreasing_by
  · have h1 : sizeOf (Value.cls cname cmod cdoc cattrs) < sizeOf attrs :=
      sizeOf_lookup hl
    have h2 : sizeOf cattrs < sizeOf (Value.cls cname cmod cdoc cattrs) := by
      simp only [Value.cls.sizeOf_spec]
      omega
    exact Prod.Lex.left _ _ (by omega)
  · exact Prod.Lex.right _ (by simp)

/-- Source lines 71-102: `analyze_attributes(file_handle, module, class_mode)`
as the list of written strings, iterating `for attr_name in dir(module)`. -/
def analyze_attributes (unit_name : String) (attrs : List (String × Value))
    (class_mode : Bool) : List String :=
  analyze_names unit_name attrs (py_dir attrs) class_mode

/-- The strings written for a single attribute name: the contribution of one
iteration of the `for attr_name in dir(module)` loop (source lines 85-102). -/
def render_one (unit_name : String) (attrs : List (String × Value))
    (n : String) (class_mode : Bool) : List String :=
  analyze_names unit_name attrs [n] class_mode

/-- The spec's `MemberFilter.isDocumentable(U, n)` as the source implements it
(lines 86 and 88-90): the name must not be deny-listed, and
`getattr(v, '__module__', '')` must equal the unit's `__name__`. -/
def is_documentable (unit_name : String) (n : String) (v : Value) : Bool :=
  decide (n ∉ ILLEGAL_ATTRIBUTES) && (getattr_module v == unit_name)

/-- Concatenation of the strings successively written to a file handle:
the final content of the output file. -/
def write_all : List String → String
  | [] => ""
  | w :: ws => w ++ write_all ws

/-- A loaded Python module: its `__name__`, its `__doc__` and its
dir-visible attribute namespace. -/
structure PyModule where
  name : String
  doc : Option String
  attrs : List (String × Value)

/-- Source lines 117-122: the writes performed by `analyze_module` on the
output file: the level-1 heading line plus a blank line, the module
docstring when truthy (`if module.__doc__:`), then the attribute writes. -/
def analyze_module_writes (package : String) (m : PyModule) : List String :=
  ("# " ++ package ++ "\n" ++ "\n")
    :: ((match m.doc with
         | some d => if d ≠ "" then [d] else []
         | none => [])
        ++ analyze_attributes m.name m.attrs false)

/-- The full text of the Markdown file produced by `analyze_module`
(source lines 105-122) for `package` and module `m`. -/
def analyze_module (package : String) (m : PyModule) : String :=
  write_all (analyze_module_writes package m)

/-- The exceptions the program raises that matter here. -/
inductive PyError where
  | fileNotFoundError (path : String)
  | notADirectoryError (path : String)
deriving DecidableEq

/-- The two fields of the argparse `Namespace` that `extract_from_file` and
`analyze_module` consume (single-file mode, so `file` is present). -/
structure Arguments where
  output_dir : String
  file : String

/-- `os.path.basename`: the part of the path after the final slash. -/
def os_path_basename (path : String) : String :=
  (path.splitOn "/").getLastD path

/-- The root part of `os.path.splitext` applied to a basename: everything
before the final dot, except that a run of dots leading the name does not
begin an extension (so `.bashrc` has no extension). -/
def splitext_root (s : String) : String :=
  let base := s.toList
  let k := (base.reverse.takeWhile (fun c => c ≠ '.')).length
  if k = base.length then s
  else
    let stemLen := base.length - k - 1
    if (base.take stemLen).all (fun c => c = '.') then s
    else String.mk (base.take stemLen)

/-- `os.path.join` for an ordinary relative-or-absolute directory and a
plain file name. -/
def os_path_join (a b : String) : String :=
  if a.endsWith "/" then a ++ b else a ++ "/" ++ b

/-- Source lines 125-148: `extract_from_file`.  `isfile` models
`os.path.isfile`; `load` models the external loader (lines 144-147:
`spec_from_file_location` / `module_from_spec` / `exec_module`), mapping the
file path and package name to the loaded module.  The result is the list of
(path, content) output files written, paired with the raised exception, if
any.  When the file does not exist, `FileNotFoundError` is raised before any
output file is opened or written. -/
def extract_from_file (isfile : String → Bool) (load : String → String → PyModule)
    (arguments : Arguments) (file : Option String) (pref : String) :
    List (String × String) × Option PyError :=
  let f := file.getD arguments.file
  if isfile f = false then
    ([], some (PyError.fileNotFoundError f))
  else
    let name := splitext_root (os_path_basename f)
    let python_package := pref ++ name
    let m := load f python_package
    ([(os_path_join arguments.output_dir (python_package ++ ".md"),
       analyze_module python_package m)], none)

/-- Attribute namespace of a module `mod` declaring a class `C` whose body
holds a method `m` and a nested class `Inner` with its own method `im`, all
carrying docstrings; every declared member has `__module__ = "mod"` and each
class reports its own `__name__`, exactly as CPython sets them. -/
def c2_attrs : List (String × Value) :=
  [("C", Value.cls "C" (some "mod") (some "C doc")
     [("m", Value.func (some "mod") (some "m doc") ["self"] none),
      ("Inner", Value.cls "Inner" (some "mod") (some "Inner doc")
        [("im", Value.func (some "mod") (some "im doc") ["self"] none)])])]

/-- The degenerate situation in which the recursive ownership test can
succeed: a module whose `__name__` coincides with the declared class's
`__name__` (a file `C.py` declaring `class C`). -/
def c2_attrs_coincidence : List (String × Value) :=
  [("C", Value.cls "C" (some "C") (some "C doc")
     [("m", Value.func (some "C") (some "m doc") ["self"] none)])]

/-- The module of the spec's scenario: module `mod` with docstring
`"Top module."` and one function `def add(a, b=1)` whose docstring is
`"Adds two numbers."`. -/
def c5_module : PyModule :=
  { name := "mod"
    doc := some "Top module."
    attrs := [("add", Value.func (some "mod") (some "Adds two numbers.")
                ["a", "b=1"] none)] }

/-- Attribute namespace of a module `mod` with one locally declared function
`f` and one function `g` imported from a unit named `imported`. -/
def c1_attrs : List (String × Value) :=
  [("f", Value.func (some "mod") (some "f doc") ["a"] none),
   ("g", Value.func (some "imported") (some "g doc") [] none)]

theorem analyze_names_append (u : String) (attrs : List (String × Value))
    (l1 l2 : List String) (class_mode : Bool) :
    analyze_names u attrs (l1 ++ l2) class_mode
      = analyze_names u attrs l1 class_mode
          ++ analyze_names u attrs l2 class_mode := by
  induction l1 with
  | nil => simp [analyze_names]
  | cons n rest ih =>
    rw [List.cons_append]
    simp only [analyze_names]
    rw [ih, List.append_assoc]

theorem render_one_illegal (u : String) (attrs : List (String × Value))
    (n : String) (class_mode : Bool) (h : n ∈ ILLEGAL_ATTRIBUTES) :
    render_one u attrs n class_mode = [] := by
  unfold render_one
  simp [analyze_names, h]

theorem render_one_not_found (u : String) (attrs : List (String × Value))
    (n : String) (class_mode : Bool) (h : attrs.lookup n = none) :
    render_one u attrs n class_mode = [] := by
  unfold render_one
  simp only [analyze_names, List.append_nil]
  by_cases hn : n ∈ ILLEGAL_ATTRIBUTES
  · simp [hn]
  · rw [if_neg hn]
    split <;> simp_all

theorem render_one_other (u : String) (attrs : List (String × Value))
    (n : String) (class_mode : Bool) (omod : Option String)
    (h : attrs.lookup n = some (Value.other omod)) :
    render_one u attrs n class_mode = [] := by
  unfold render_one
  simp only [analyze_names, List.append_nil]
  by_cases hn : n ∈ ILLEGAL_ATTRIBUTES
  · simp [hn]
  · rw [if_neg hn]
    split <;> simp_all

theorem render_one_foreign (u : String) (attrs : List (String × Value))
    (n : String) (class_mode : Bool) (v : Value)
    (h : attrs.lookup n = some v) (hm : getattr_module v ≠ u) :
    render_one u attrs n class_mode = [] := by
  unfold render_one
  simp only [analyze_names, List.append_nil]
  by_cases hn : n ∈ ILLEGAL_ATTRIBUTES
  · simp [hn]
  · rw [if_neg hn]
    cases v with
    | cls cname cmod cdoc cattrs =>
      simp only [getattr_module] at hm
      split <;> simp_all
    | func fmod fdoc fparams fwrapped =>
      simp only [getattr_module] at hm
      split <;> simp_all
    | other omod =>
      split <;> simp_all

theorem render_one_func (u : String) (attrs : List (String × Value))
    (n : String) (class_mode : Bool) (fmod : Option String)
    (fdoc : Option String) (fparams : List String)
    (fwrapped : Option (List String))
    (h : attrs.lookup n = some (Value.func fmod fdoc fparams fwrapped))
    (hleg : n ∉ ILLEGAL_ATTRIBUTES) (hown : fmod.getD "" = u) :
    render_one u attrs n class_mode
      = [(if class_mode then "### Method " ++ n
          else "## Function " ++ n
               ++ get_formatted_parameters
                    (Value.func fmod fdoc fparams fwrapped))
         ++ "\n" ++ doc_or_empty fdoc ++ "\n"] := by
  unfold render_one
  simp only [analyze_names, List.append_nil]
  rw [if_neg hleg]
  split <;> simp_all

theorem render_one_cls (u : String) (attrs : List (String × Value))
    (n : String) (class_mode : Bool) (cname : String) (cmod : Option String)
    (cdoc : Option String) (cattrs : List (String × Value))
    (h : attrs.lookup n = some (Value.cls cname cmod cdoc cattrs))
    (hleg : n ∉ ILLEGAL_ATTRIBUTES) (hown : cmod.getD "" = u) :
    render_one u attrs n class_mode
      = ("## Class " ++ n ++ "\n" ++ doc_or_empty cdoc ++ "\n")
          :: analyze_attributes cname cattrs true := by
  unfold render_one analyze_attributes
  simp only [analyze_names, List.append_nil]
  rw [if_neg hleg]
  split <;> simp_all

theorem analyze_names_eq_flatten (u : String) (attrs : List (String × Value))
    (names : List String) (class_mode : Bool) :
    analyze_names u attrs names class_mode
      = List.flatten (names.map (fun n => render_one u attrs n class_mode)) := by
  induction names with
  | nil => simp [analyze_names]
  | cons n rest ih =>
    have h1 : n :: rest = [n] ++ rest := rfl
    rw [h1, analyze_names_append, ih]
    simp [render_one]

theorem join_parameters_append (x y : String) (as : List String) :
    join_parameters ((x ++ y) :: as) = x ++ join_parameters (y :: as) := by
  cases as with
  | nil => rfl
  | cons a as => simp [join_parameters, String.append_assoc]

theorem intercalate_go_spec (as : List String) :
    ∀ acc : String,
      String.intercalate.go acc ", " as = join_parameters (acc :: as) := by
  induction as with
  | nil => intro acc; rfl
  | cons a as ih =>
    intro acc
    rw [String.intercalate.go, ih]
    rw [String.append_assoc]
    rw [join_parameters_append]
    cases as with
    | nil => simp [join_parameters, String.append_assoc]
    | cons b bs => simp [join_parameters, String.append_assoc]

theorem join_parameters_eq_intercalate (ps : List String) :
    join_parameters ps = String.intercalate ", " ps := by
  cases ps with
  | nil => rfl
  | cons p rest => rw [String.intercalate, intercalate_go_spec]

theorem py_dir_sorted (attrs : List (String × Value)) :
    List.Sorted (· ≤ ·) (py_dir attrs) :=
  List.sorted_insertionSort _ _

theorem py_dir_nodup (attrs : List (String × Value)) :
    (py_dir attrs).Nodup :=
  ((List.perm_insertionSort _ _).symm).nodup ((attrs.map Prod.fst).nodup_dedup)

theorem lookup_some_mem {l : List (String × Value)} {n : String} {v : Value}
    (h : l.lookup n = some v) : n ∈ l.map Prod.fst := by
  induction l with
  | nil => simp [List.lookup] at h
  | cons p t ih =>
    obtain ⟨k, w⟩ := p
    rw [List.lookup] at h
    cases hk : (n == k) with
    | true =>
      have hnk : n = k := eq_of_beq hk
      simp [hnk]
    | false =>
      rw [hk] at h
      exact List.mem_cons_of_mem _ (ih h)

theorem mem_py_dir {attrs : List (String × Value)} {n : String} :
    n ∈ py_dir attrs ↔ n ∈ attrs.map Prod.fst := by
  rw [py_dir, List.mem_insertionSort]
  exact List.mem_dedup

theorem py_dir_count_one {attrs : List (String × Value)} {n : String}
    {v : Value} (h : attrs.lookup n = some v) : (py_dir attrs).count n = 1 :=
  List.count_eq_one_of_mem (py_dir_nodup attrs) (mem_py_dir.mpr (lookup_some_mem h))

theorem write_all_append (l1 l2 : List String) :
    write_all (l1 ++ l2) = write_all l1 ++ write_all l2 := by
  induction l1 with
  | nil => simp [write_all]
  | cons w ws ih => simp [write_all, ih, String.append_assoc]

theorem analyze_module_eq (package : String) (m : PyModule) :
    analyze_module package m
      = "# " ++ package ++ "\n" ++ "\n" ++ doc_or_empty m.doc
          ++ write_all (analyze_attributes m.name m.attrs false) := by
  unfold analyze_module analyze_module_writes
  cases hd : m.doc with
  | none =>
    simp [write_all, write_all_append, doc_or_empty, String.append_assoc]
  | some d =>
    by_cases hne : d = ""
    · subst hne
      simp [write_all, write_all_append, doc_or_empty, String.append_assoc]
    · simp [hne, write_all, write_all_append, doc_or_empty, String.append_assoc]

/-- C1: rendering a unit is the in-order concatenation of the per-name
contributions over `dir`, which lists every attribute name exactly once
(count 1). A class or function attribute owned by the unit (its `__module__`
equals the unit's `__name__`, name not deny-listed) contributes exactly its
one heading block (for a class, followed only by the nested render of the
class unit itself); a class or function merely imported from elsewhere
(owning unit differs) contributes no block at all. -/
theorem c1_ownership_filter (u : String) (attrs : List (String × Value))
    (class_mode : Bool) (n : String) (v : Value)
    (hlook : attrs.lookup n = some v) (hleg : n ∉ ILLEGAL_ATTRIBUTES) :
    analyze_attributes u attrs class_mode
      = List.flatten ((py_dir attrs).map (fun a => render_one u attrs a class_mode))
    ∧ (py_dir attrs).count n = 1
    ∧ (∀ fmod fdoc fparams fwrapped,
        v = Value.func fmod fdoc fparams fwrapped → fmod.getD "" = u →
        render_one u attrs n class_mode
          = [(if class_mode then "### Method " ++ n
              else "## Function " ++ n ++ get_formatted_parameters v)
             ++ "\n" ++ doc_or_empty fdoc ++ "\n"])
    ∧ (∀ cname cmod cdoc cattrs,
        v = Value.cls cname cmod cdoc cattrs → cmod.getD "" = u →
        render_one u attrs n class_mode
          = ("## Class " ++ n ++ "\n" ++ doc_or_empty cdoc ++ "\n")
              :: analyze_attributes cname cattrs true)
    ∧ (getattr_module v ≠ u → render_one u attrs n class_mode = []) := by
  refine ⟨?_, py_dir_count_one hlook, ?_, ?_, ?_⟩
  · unfold analyze_attributes
    exact analyze_names_eq_flatten u attrs (py_dir attrs) class_mode
  · intro fmod fdoc fparams fwrapped hv hown
    subst hv
    exact render_one_func u attrs n class_mode fmod fdoc fparams fwrapped
      hlook hleg hown
  · intro cname cmod cdoc cattrs hv hown
    subst hv
    exact render_one_cls u attrs n class_mode cname cmod cdoc cattrs
      hlook hleg hown
  · intro hm
    exact render_one_foreign u attrs n class_mode v hlook hm

/-- Witness for C1, on a module `mod` declaring `f` and importing `g`:
the declared function yields its single heading block and the imported
function yields nothing. -/
theorem c1_ownership_filter_witness :
    render_one "mod" c1_attrs "f" false = ["## Function f(a)\nf doc\n"]
    ∧ render_one "mod" c1_attrs "g" false = [] := by
  constructor
  · have h := (c1_ownership_filter "mod" c1_attrs false "f"
      (Value.func (some "mod") (some "f doc") ["a"] none) rfl
      (by decide)).2.2.1 (some "mod") (some "f doc") ["a"] none rfl rfl
    rw [h]
    rfl
  · exact (c1_ownership_filter "mod" c1_attrs false "g"
      (Value.func (some "imported") (some "g doc") [] none) rfl
      (by decide)).2.2.2.2 (by decide)

/-- C2: the claim says a class with one method and one nested class renders,
after its own `## Class` heading, the method's `### Method` heading and the
nested class's `## Class` heading.  The code does not: inside a class the
ownership test compares each member's `__module__` (the module name `mod`)
against the class's `__name__` (`C`), so all methods and nested classes are
skipped and only the outer class heading block is written.  The second
conjunct shows the comparison really is against the class's `__name__`: when
module name and class name coincide the `### Method` heading does appear. -/
theorem c2_nested_rendering_bug :
    analyze_attributes "mod" c2_attrs false = ["## Class C\nC doc\n"]
    ∧ analyze_attributes "C" c2_attrs_coincidence false
        = ["## Class C\nC doc\n", "### Method m\nm doc\n"] := by
  constructor
  · simp +decide [analyze_attributes, c2_attrs, py_dir, analyze_names,
      ILLEGAL_ATTRIBUTES, List.lookup, doc_or_empty]
  · simp +decide [analyze_attributes, c2_attrs_coincidence, py_dir,
      analyze_names, ILLEGAL_ATTRIBUTES, List.lookup, doc_or_empty,
      get_formatted_parameters, inspect_signature, join_parameters]

/-- C3: a documentable function member rendered in class mode gets exactly
the level-3 heading line `### Method <name>` with no parameter signature
(the parameter list `fparams` does not occur in the output), while at top
level it gets the level-2 heading `## Function <name>` immediately followed,
with no separator, by the formatted parameter signature. -/
theorem c3_method_vs_function_heading (u : String)
    (attrs : List (String × Value)) (n : String) (fmod fdoc : Option String)
    (fparams : List String) (fwrapped : Option (List String))
    (hlook : attrs.lookup n = some (Value.func fmod fdoc fparams fwrapped))
    (hleg : n ∉ ILLEGAL_ATTRIBUTES) (hown : fmod.getD "" = u) :
    render_one u attrs n true
      = ["### Method " ++ n ++ "\n" ++ doc_or_empty fdoc ++ "\n"]
    ∧ render_one u attrs n false
      = ["## Function " ++ n
         ++ ("(" ++ String.intercalate ", " fparams ++ ")")
         ++ "\n" ++ doc_or_empty fdoc ++ "\n"] := by
  constructor
  · have h := render_one_func u attrs n true fmod fdoc fparams fwrapped
      hlook hleg hown
    rw [h]
    simp
  · have h := render_one_func u attrs n false fmod fdoc fparams fwrapped
      hlook hleg hown
    rw [h]
    simp [get_formatted_parameters, inspect_signature,
      join_parameters_eq_intercalate, String.append_assoc]

/-- Witness for C3 at a function `h` with parameters `x, y=2`. -/
theorem c3_method_vs_function_heading_witness :
    render_one "U" [("h", Value.func (some "U") (some "h doc") ["x", "y=2"] none)]
      "h" true = ["### Method h\nh doc\n"]
    ∧ render_one "U" [("h", Value.func (some "U") (some "h doc") ["x", "y=2"] none)]
      "h" false = ["## Function h(x, y=2)\nh doc\n"] := by
  have h := c3_method_vs_function_heading "U"
    [("h", Value.func (some "U") (some "h doc") ["x", "y=2"] none)]
    "h" (some "U") (some "h doc") ["x", "y=2"] none rfl (by decide) rfl
  constructor
  · rw [h.1]
    rfl
  · rw [h.2]
    rfl

/-- C4: `get_formatted_parameters` returns an opening parenthesis, the
comma-space-joined declared parameter forms, and a closing parenthesis; it
reads the function's own declared signature (`follow_wrapped := false`), so
a `__wrapped__` layer underneath is ignored; an empty parameter list renders
as exactly `()`. -/
theorem c4_get_formatted_parameters (fmod fdoc : Option String)
    (fparams qs : List String) (fwrapped : Option (List String)) :
    get_formatted_parameters (Value.func fmod fdoc fparams fwrapped)
      = "(" ++ String.intercalate ", " fparams ++ ")"
    ∧ inspect_signature (Value.func fmod fdoc fparams (some qs)) false = fparams
    ∧ get_formatted_parameters (Value.func fmod fdoc [] fwrapped) = "()" := by
  refine ⟨?_, rfl, rfl⟩
  simp [get_formatted_parameters, inspect_signature,
    join_parameters_eq_intercalate]

/-- C5: `analyze_module` writes the level-1 heading with the display name,
a blank line, then the module docstring verbatim when present and nothing
at all when absent (the `doc_or_empty` term: never a `None` placeholder),
followed by the member blocks; on the spec's concrete scenario module the
file content is exactly the claimed text. -/
theorem c5_render_module :
    (∀ (package : String) (m : PyModule),
      analyze_module package m
        = "# " ++ package ++ "\n" ++ "\n" ++ doc_or_empty m.doc
            ++ write_all (analyze_attributes m.name m.attrs false))
    ∧ analyze_module "mod" c5_module
        = "# mod\n\nTop module." ++ "## Function add(a, b=1)\nAdds two numbers.\n" := by
  constructor
  · exact analyze_module_eq
  · rw [analyze_module_eq]
    have h : analyze_attributes c5_module.name c5_module.attrs false
        = ["## Function add(a, b=1)\nAdds two numbers.\n"] := by
      simp [analyze_attributes, c5_module, py_dir, analyze_names,
        ILLEGAL_ATTRIBUTES, List.lookup, doc_or_empty,
        get_formatted_parameters, inspect_signature, join_parameters]
    rw [h]
    rfl

/-- C6 counterexample: the claim says that for a value with no discoverable
owning unit (here plain data with no `__module__` attribute, in unit `mod`)
the member filter returns true.  In the code the defaulted owner `''` fails
the ownership comparison of line 89, so the filter returns false. -/
theorem c6_counterexample_filter_rejects :
    is_documentable "mod" "x" (Value.other none) = false := by
  rfl

/-- C6 (amended): an attribute value with no owning-unit attribute is
rejected by the ownership comparison itself (`getattr(v, '__module__', '')`
defaults to `''`, which differs from every nonempty unit name) rather than
accepted by the filter; a plain value whose `__module__` matches the unit
does pass the filter (when its name is not deny-listed) and is excluded by
the kind test alone; in all cases a non-class, non-function attribute
produces no output and raises no error. -/
theorem c6_other_values_skipped :
    (∀ (u n : String), u ≠ "" → is_documentable u n (Value.other none) = false)
    ∧ (∀ (u n : String), n ∉ ILLEGAL_ATTRIBUTES →
        is_documentable u n (Value.other (some u)) = true)
    ∧ (∀ (u : String) (attrs : List (String × Value)) (n : String)
        (class_mode : Bool) (omod : Option String),
        attrs.lookup n = some (Value.other omod) →
        render_one u attrs n class_mode = []) := by
  refine ⟨?_, ?_, ?_⟩
  · intro u n hu
    simp only [is_documentable, getattr_module, Option.getD_none,
      Bool.and_eq_false_imp]
    intro _
    simp [hu.symm]
  · intro u n hn
    simp [is_documentable, getattr_module, hn]
  · intro u attrs n class_mode omod h
    exact render_one_other u attrs n class_mode omod h

/-- Witness for C6 (amended): a plain data value owned by `mod` passes the
filter yet is rendered as nothing, and an ownerless one is rejected. -/
theorem c6_other_values_skipped_witness :
    is_documentable "mod" "x" (Value.other (some "mod")) = true
    ∧ render_one "mod" [("x", Value.other (some "mod"))] "x" false = []
    ∧ is_documentable "mod" "y" (Value.other none) = false := by
  refine ⟨?_, ?_, ?_⟩
  · exact c6_other_values_skipped.2.1 "mod" "x" (by decide)
  · exact c6_other_values_skipped.2.2 "mod"
      [("x", Value.other (some "mod"))] "x" false (some "mod") rfl
  · exact c6_other_values_skipped.1 "mod" "y" (by decide)

/-- C7: a name on the `ILLEGAL_ATTRIBUTES` deny-list is never documented
in any unit and any mode: its loop iteration writes nothing, and the member
filter rejects it whatever value it resolves to. -/
theorem c7_deny_list_never_documented (u : String)
    (attrs : List (String × Value)) (n : String) (class_mode : Bool)
    (h : n ∈ ILLEGAL_ATTRIBUTES) :
    render_one u attrs n class_mode = []
    ∧ (∀ v : Value, is_documentable u n v = false) := by
  refine ⟨render_one_illegal u attrs n class_mode h, ?_⟩
  intro v
  simp [is_documentable, h]

/-- Witness for C7: even a function genuinely owned by the module is not
documented when it is named `__name__`. -/
theorem c7_deny_list_never_documented_witness :
    render_one "mod" [("__name__", Value.func (some "mod") (some "d") [] none)]
      "__name__" false = [] := by
  exact (c7_deny_list_never_documented "mod"
    [("__name__", Value.func (some "mod") (some "d") [] none)]
    "__name__" false (by decide)).1

/-- C8: when the requested single file does not exist, `extract_from_file`
raises `FileNotFoundError` for that path and no output file is created or
written. -/
theorem c8_missing_file_aborts (isfile : String → Bool)
    (load : String → String → PyModule) (arguments : Arguments)
    (file : Option String) (pref : String)
    (h : isfile (file.getD arguments.file) = false) :
    extract_from_file isfile load arguments file pref
      = ([], some (PyError.fileNotFoundError (file.getD arguments.file))) := by
  unfold extract_from_file
  simp [h]

/-- Witness for C8 on a filesystem with no files at all. -/
theorem c8_missing_file_aborts_witness :
    extract_from_file (fun _ => false)
      (fun _ p => { name := p, doc := none, attrs := [] })
      { output_dir := ".", file := "missing.py" } none ""
      = ([], some (PyError.fileNotFoundError "missing.py")) := by
  exact c8_missing_file_aborts (fun _ => false)
    (fun _ p => { name := p, doc := none, attrs := [] })
    { output_dir := ".", file := "missing.py" } none "" rfl

/-- C9: a non-empty module docstring is written with no trailing newline of
its own: the file content is the heading block, then the docstring, then
immediately the first member write, so the first member heading starts right
after the docstring's last character (on the same line unless the docstring
itself ends with a newline). -/
theorem c9_doc_no_trailing_newline (package : String) (m : PyModule)
    (d : String) (hdoc : m.doc = some d) (hne : d ≠ "") :
    analyze_module package m
      = ("# " ++ package ++ "\n" ++ "\n")
          ++ (d ++ write_all (analyze_attributes m.name m.attrs false))
    ∧ (∀ (w : String) (ws : List String),
        analyze_attributes m.name m.attrs false = w :: ws →
        analyze_module package m
          = ("# " ++ package ++ "\n" ++ "\n") ++ (d ++ (w ++ write_all ws))) := by
  have h := analyze_module_eq package m
  rw [hdoc] at h
  constructor
  · rw [h]
    simp [doc_or_empty, String.append_assoc]
  · intro w ws hw
    rw [h, hw]
    simp [doc_or_empty, write_all, String.append_assoc]

/-- Witness for C9 on the scenario module: the `## Function` heading follows
the docstring's final period with no separator. -/
theorem c9_doc_no_trailing_newline_witness :
    analyze_module "mod" c5_module
      = ("# " ++ "mod" ++ "\n" ++ "\n")
          ++ ("Top module."
              ++ write_all (analyze_attributes c5_module.name c5_module.attrs false)) := by
  exact (c9_doc_no_trailing_newline "mod" c5_module "Top module." rfl
    (by decide)).1

/-- C10: the traversal enumerates the attribute names in the ascending
lexicographic order produced by `dir` (sorted, and listing each name once),
and the rendered output is the concatenation of the per-name blocks in
exactly that order. -/
theorem c10_traversal_sorted (u : String) (attrs : List (String × Value))
    (class_mode : Bool) :
    List.Sorted (· ≤ ·) (py_dir attrs)
    ∧ (py_dir attrs).Nodup
    ∧ analyze_attributes u attrs class_mode
        = List.flatten ((py_dir attrs).map (fun n => render_one u attrs n class_mode)) := by
  refine ⟨py_dir_sorted attrs, py_dir_nodup attrs, ?_⟩
  unfold analyze_attributes
  exact analyze_names_eq_flatten u attrs (py_dir attrs) class_mode

end PyDocExtractor
